import Mathlib

/-!
Shallow embedding of the availability/booking controller of this repository
(`src/controller/authController.ts`, `src/middleware/auth.ts`), together with
spec-level comparison definitions, and theorems settling the frozen claims.

Modelling conventions, stated once here and referenced from the definitions:

* HTTP handlers become pure functions `Store → inputs → Resp × Store`; the
  `Resp` is the first response actually sent on the wire (Express sends the
  first `res.status(..).json(..)`; any later send throws
  `ERR_HTTP_HEADERS_SENT`, which we model explicitly in the availability
  loop, see `forEachStep`).
* `zodForSetAvailability` (authController.ts:31-35) is not a valid schema:
  its shape values are zod's factory functions `number` and `string`
  themselves (imported at line 6), not schema instances, so
  `zodForSetAvailability.parse(req.body)` throws on every request body when
  the object parser dereferences a shape value's schema internals.  The
  handler's blanket `catch` then answers 500 "Internal server error" and
  nothing is persisted.  `SetAvailability` below models exactly this;
  `setAvailabilityPostParse` models the code from line 184 onward — the path
  the handler would take if the parse returned, kept because claim C8 is
  about the data flow of the overlap loop that lives there.
* The loop's `number(x)` (lines 216-217, 224) is a call to that same zod
  factory, not a numeric conversion: whatever the argument, it returns a
  `ZodNumber` object, and a JS relational operator coerces each object
  operand to the primitive string "[object Object]".  `numberFactoryPrim`
  models that operand; `charsLE`/`charsLT`/`charsGT` are JS string
  comparison, so the `<=` in the loop is constantly true and the `>`/`<`
  constantly false.
* `ZodForCreateService` (lines 9-29), by contrast, is a valid schema built
  from real `z.literal`/`z.enum`/`z.number()` instances; it is modelled by
  `zodAccepts`, following each combinator.
-/

/-- An HTTP response: status code and the body's message field, verbatim from
the source's `res.status(s).json({...})` calls. -/
structure Resp where
  status : Nat
  body : String
  deriving Repr, DecidableEq

/-- A persisted service row (`prisma.service`): `userId` is the owning
provider, as written by `CreateService`. -/
structure Service where
  id : String
  userId : String
  name : String
  type : String
  durationMinutes : Rat
  deriving Repr, DecidableEq

/-- A persisted availability row (`prisma.availability`): times are stored as
the raw request strings, exactly as `SetAvailability` persists them. -/
structure Availability where
  serviceId : String
  dayOfWeek : Int
  startTime : String
  endTime : String
  deriving Repr, DecidableEq

/-- The persistent store: the `service` and `availability` tables. -/
structure Store where
  services : List Service
  availabilities : List Availability
  deriving Repr, DecidableEq

/-- Digits of a decimal literal folded to a `Nat`. -/
def digitsToNat (l : List Char) : Nat :=
  l.foldl (fun a c => a * 10 + (c.toNat - 48)) 0

/-- `s.split(",")[0]`: the source splits the time strings on a comma (not a
colon) and takes the first component, i.e. the characters before the first
comma. -/
def firstComma (s : String) : List Char :=
  s.data.takeWhile (fun c => ¬(c = ','))

/-- JS `<` on strings: lexicographic comparison of the code units. -/
def charsLT : List Char → List Char → Bool
  | [], [] => false
  | [], _ :: _ => true
  | _ :: _, [] => false
  | a :: as, b :: bs => if a = b then charsLT as bs else decide (a < b)

/-- JS `a <= b` on strings is `!(b < a)`. -/
def charsLE (a b : List Char) : Bool :=
  !(charsLT b a)

/-- JS `a > b` on strings is `b < a`. -/
def charsGT (a b : List Char) : Bool :=
  charsLT b a

/-- The comparison operand the source's `number(x)` produces
(authController.ts:216-217, 224): `number` is zod's `ZodNumber` factory
imported at line 6, not a numeric conversion, so whatever the argument it
returns a schema object; a JS relational operator coerces that object (via
`Object.prototype.toString`) to the primitive string "[object Object]". -/
def numberFactoryPrim (_ : List Char) : String :=
  "[object Object]"

/-- First conflict test of the source's loop (authController.ts:215-218):
`number(startSplitDate[0]) <= number(userStartingTime[0]) &&
number(endSplitDate[0]) > number(userStartingTime[0])`.  Both
`startSplitDate` and `endSplitDate` are built from `element.startTime`
(lines 212-213), so both bounds come from the stored window's start time;
under the object-operand semantics the `<=` is constantly true and the `>`
constantly false, so the test never fires. -/
def overlapCond1 (element : Availability) (userStartingTime : String) : Bool :=
  let startSplitDate := firstComma element.startTime
  let endSplitDate := firstComma element.startTime
  charsLE (numberFactoryPrim startSplitDate).data
      (numberFactoryPrim (firstComma userStartingTime)).data &&
    charsGT (numberFactoryPrim endSplitDate).data
      (numberFactoryPrim (firstComma userStartingTime)).data

/-- Second conflict test of the source's loop (authController.ts:224):
`number(userEndingTime[0]) < number(startSplitDate[0])`; under the
object-operand semantics the `<` is constantly false, so the
"Overlapping availability" response can never be sent. -/
def overlapCond2 (element : Availability) (userEndingTime : String) : Bool :=
  charsLT (numberFactoryPrim (firstComma userEndingTime)).data
    (numberFactoryPrim (firstComma element.startTime)).data

/-- State carried across the `forEach` callback: the response already sent
(if any) and whether an exception is pending.  A `return` inside the callback
only leaves the callback, so the loop continues; a second
`res.status(..).json(..)` after a response was sent throws
`ERR_HTTP_HEADERS_SENT`, which aborts the `forEach` and is caught by the
handler's `catch`. -/
def sendConflict (st : Option Resp × Bool) : Option Resp × Bool :=
  match st with
  | (none, e) => (some ⟨500, "Overlapping availability"⟩, e)
  | (some r, _) => (some r, true)

/-- One iteration of `findslote.forEach` (authController.ts:211-229): if an
exception is pending the loop is already aborted; otherwise the two conflict
tests each attempt to send the overlap response. -/
def forEachStep (userStartingTime userEndingTime : String)
    (st : Option Resp × Bool) (element : Availability) : Option Resp × Bool :=
  match st with
  | (sent, true) => (sent, true)
  | (sent, false) =>
    let st1 :=
      if overlapCond1 element userStartingTime then sendConflict (sent, false)
      else (sent, false)
    match st1 with
    | (sent1, true) => (sent1, true)
    | (sent1, false) =>
      if overlapCond2 element userEndingTime then sendConflict (sent1, false)
      else (sent1, false)

/-- The code of the `SetAvailability` handler from line 184 onward
(authController.ts:184-249) — the path the handler would take if
`zodForSetAvailability.parse` returned the body's fields.  In the program
this path is unreachable (the parse throws first, see
`zodForSetAvailabilityParse`); it is modelled because claim C8 concerns the
data flow of the overlap loop inside it.  Stages, following the source:
1. the falsiness check `!startTime || !endTime || !dayOfWeek || !serviceId`
   (empty string and the number 0 are falsy) → 400;
2. `prisma.service.findFirst` miss → 500 "Service not found" (the handler's
   own comment block says 404 here);
3. `findslote.forEach` runs the conflict tests (the `if findslote.length != 0`
   guard is a no-op for the empty list);
4. if the loop finished without an exception, `prisma.availability.create`
   persists the row — also when a conflict response was already sent, since
   the callback's `return` cannot leave the handler; the final
   `res.status(201)` then throws (headers sent) and the `catch`'s own send
   throws again, leaving the conflict response on the wire;
5. if the loop aborted with an exception, `create` is never reached and the
   `catch`'s send of 500 only succeeds when nothing was sent yet. -/
def setAvailabilityPostParse (store : Store) (serviceId : String)
    (dayOfWeek : Int) (startTime endTime : String) : Resp × Store :=
  if startTime = "" ∨ endTime = "" ∨ dayOfWeek = 0 ∨ serviceId = "" then
    (⟨400, "Invalid input or time format"⟩, store)
  else
    match store.services.find? (fun s => s.id = serviceId) with
    | none => (⟨500, "Service not found"⟩, store)
    | some _ =>
      let findslote := store.availabilities.filter
        (fun a => a.serviceId = serviceId && a.dayOfWeek = dayOfWeek)
      let loop := findslote.foldl (forEachStep startTime endTime) (none, false)
      let newRow : Availability := ⟨serviceId, dayOfWeek, startTime, endTime⟩
      match loop with
      | (none, false) =>
        (⟨201, "Created"⟩,
          { store with availabilities := store.availabilities ++ [newRow] })
      | (some r, false) =>
        (r, { store with availabilities := store.availabilities ++ [newRow] })
      | (some r, true) => (r, store)
      | (none, true) => (⟨500, "Internal server error"⟩, store)

/-- `zodForSetAvailability.parse(req.body)` (authController.ts:181-183).
The schema's shape values are zod's factory functions `number` and `string`
themselves (line 6 imports them; lines 31-35 use them unapplied), not schema
instances, so the object parser throws a plain error on every request body
the moment it dereferences a shape value's schema internals.  `none` is the
thrown error; no body ever parses. -/
def zodForSetAvailabilityParse (_dayOfWeek : Int)
    (_startTime _endTime : String) : Option (Int × String × String) :=
  none

/-- `SetAvailability` (authController.ts:175-250), the handler's observable
behavior: the zod parse at line 181 throws on every request (see
`zodForSetAvailabilityParse`), the blanket `catch` at line 245 answers
500 "Internal server error", and nothing is persisted.  The falsiness check,
the `findFirst` miss branch, the overlap loop and `availability.create` are
all after the parse and therefore unreachable. -/
def SetAvailability (store : Store) (serviceId : String) (dayOfWeek : Int)
    (startTime endTime : String) : Resp × Store :=
  match zodForSetAvailabilityParse dayOfWeek startTime endTime with
  | none => (⟨500, "Internal server error"⟩, store)
  | some (d, sT, eT) => setAvailabilityPostParse store serviceId d sT eT

/-- An authenticated principal as produced by `authenticate`
(middleware/auth.ts): the decoded token's `id` and `role`. -/
structure Principal where
  id : String
  role : String
  deriving Repr, DecidableEq

/-- `isService_Provider` (middleware/auth.ts:33-50): passes the request on
exactly when the principal's role is `SERVICE_PROVIDER`; it never consults
the target service or its owner. -/
def isService_Provider (p : Principal) : Bool :=
  p.role == "SERVICE_PROVIDER"

/-- The route `POST /services/:serviceId/availability`: `authenticate` (the
principal is given), then `isService_Provider`, then `SetAvailability`. -/
def handleSetAvailability (store : Store) (p : Principal) (serviceId : String)
    (dayOfWeek : Int) (startTime endTime : String) : Resp × Store :=
  if isService_Provider p then
    SetAvailability store serviceId dayOfWeek startTime endTime
  else
    (⟨403, "Forbidden (wrong role)"⟩, store)

/-- The `type` enum of `ZodForCreateService` (authController.ts:12-19). -/
def validServiceType (t : String) : Bool :=
  t ∈ ["MEDICAL", "HOUSE_HELP", "BEAUTY", "FITNESS", "EDUCATION", "OTHER"]

/-- The `durationMinutes` chain of `ZodForCreateService`
(authController.ts:21-28): `number().int().gte(30).lte(120)` refined by
`val % 30 === 0`.  A JS number is modelled as `Rat`; `.int()` is
denominator 1. -/
def validDuration (d : Rat) : Bool :=
  d.den == 1 && 30 ≤ d && d ≤ 120 && d.num % 30 == 0

/-- A `POST /services` request body, with the three fields the schema names. -/
structure CreateServiceBody where
  name : String
  type : String
  durationMinutes : Rat
  deriving Repr, DecidableEq

/-- `ZodForCreateService.parse` succeeds (authController.ts:9-29): the `name`
literal, the `type` enum, and the duration chain must all hold. -/
def zodAccepts (b : CreateServiceBody) : Bool :=
  b.name == "Physiotherapy" && validServiceType b.type &&
    validDuration b.durationMinutes

/-- `CreateService` (authController.ts:112-143): on parse success a service
row is created for the authenticated user and 201 returned (the `if (!data)`
branch is dead — a successful parse returns an object, which is truthy); a
`ZodError` falls into the blanket `catch` and returns 500 with the source's
literal message (leading space included).  `newId` stands for the id the
storage layer generates for the new row. -/
def CreateService (store : Store) (userId : String) (b : CreateServiceBody)
    (newId : String) : Resp × Store :=
  if zodAccepts b then
    (⟨201, "Created"⟩,
      { store with services := store.services ++
          [⟨newId, userId, b.name, b.type, b.durationMinutes⟩] })
  else
    (⟨500, " Internal server error"⟩, store)

/-- Split a character list at every occurrence of `sep` (the components, in
order; an empty input gives one empty component, like `"".split(sep)`). -/
def splitChar (sep : Char) : List Char → List (List Char)
  | [] => [[]]
  | c :: rest =>
    match splitChar sep rest with
    | [] => [[c]]
    | h :: t => if c = sep then [] :: h :: t else (c :: h) :: t

/-- Modelled from the spec: the canonical `"HH:MM"` parser of §4.1 (the
source has no such parser — this definition exists only to state the claims'
spec side).  Fails on a wrong separator, out-of-range hour or minute, or
non-numeric content; otherwise yields minutes since midnight. -/
def parseHM (s : String) : Option Nat :=
  match splitChar ':' s.data with
  | [h, m] =>
    if h ≠ [] ∧ h.all Char.isDigit ∧ m ≠ [] ∧ m.all Char.isDigit then
      let hv := digitsToNat h
      let mv := digitsToNat m
      if hv < 24 ∧ mv < 60 then some (hv * 60 + mv) else none
    else none
  | _ => none

/-- Modelled from the spec: strict interval overlap of §4.1,
`start < other.end && other.start < end` on minute ranges. -/
def specOverlaps (s1 e1 s2 e2 : Nat) : Bool :=
  s1 < e2 && s2 < e1

/-- Modelled from the spec: two stored availability rows strictly overlap
when both parse under the canonical parser and their minute ranges overlap. -/
def rowsOverlap (a b : Availability) : Bool :=
  match parseHM a.startTime, parseHM a.endTime,
      parseHM b.startTime, parseHM b.endTime with
  | some s1, some e1, some s2, some e2 => specOverlaps s1 e1 s2 e2
  | _, _, _, _ => false

/-- The arguments of one `SetAvailability` (addWindow) request: the route's
serviceId and the body's dayOfWeek and time strings. -/
structure WindowCall where
  serviceId : String
  dayOfWeek : Int
  startTime : String
  endTime : String
  deriving Repr, DecidableEq

/-- The store after one `SetAvailability` call. -/
def applyWindowCall (st : Store) (c : WindowCall) : Store :=
  (SetAvailability st c.serviceId c.dayOfWeek c.startTime c.endTime).2

/-- The store after a sequence of `SetAvailability` calls; every state
reachable by such calls is `runWindowCalls` of some prefix. -/
def runWindowCalls (st : Store) (cs : List WindowCall) : Store :=
  cs.foldl applyWindowCall st

/-- The spec's store invariant: no two persisted windows for the same
`(serviceId, dayOfWeek)` strictly overlap. -/
def windowsNonOverlapping (st : Store) : Prop :=
  st.availabilities.Pairwise
    (fun a b => ¬(a.serviceId = b.serviceId ∧ a.dayOfWeek = b.dayOfWeek ∧
      rowsOverlap a b = true))

/-- Two availability rows that agree on everything except possibly their
stored `endTime` (used to state endTime-noninterference of the overlap loop). -/
def sameButEnd (a b : Availability) : Prop :=
  a.serviceId = b.serviceId ∧ a.dayOfWeek = b.dayOfWeek ∧ a.startTime = b.startTime

theorem forEachStep_eq (sT eT : String) (st : Option Resp × Bool)
    (a b : Availability) (h : a.startTime = b.startTime) :
    forEachStep sT eT st a = forEachStep sT eT st b := by
  simp only [forEachStep, overlapCond1, overlapCond2, h]

theorem foldl_forEachStep_eq (sT eT : String) {l1 l2 : List Availability}
    (h : List.Forall₂ sameButEnd l1 l2) :
    ∀ init, l1.foldl (forEachStep sT eT) init = l2.foldl (forEachStep sT eT) init := by
  induction h with
  | nil => intro init; rfl
  | cons hab htail ih =>
    intro init
    simp only [List.foldl_cons]
    rw [forEachStep_eq sT eT init _ _ hab.2.2]
    exact ih _

theorem filter_sameButEnd {l1 l2 : List Availability}
    (h : List.Forall₂ sameButEnd l1 l2) (sid : String) (d : Int) :
    List.Forall₂ sameButEnd
      (l1.filter (fun a => a.serviceId = sid && a.dayOfWeek = d))
      (l2.filter (fun a => a.serviceId = sid && a.dayOfWeek = d)) := by
  induction h with
  | nil => exact List.Forall₂.nil
  | @cons a b t1 t2 hab htail ih =>
    have hc : (decide (b.serviceId = sid) && decide (b.dayOfWeek = d)) =
        (decide (a.serviceId = sid) && decide (a.dayOfWeek = d)) := by
      rw [hab.1, hab.2.1]
    simp only [List.filter_cons, hc]
    cases hv : (decide (a.serviceId = sid) && decide (a.dayOfWeek = d)) with
    | false => exact ih
    | true => exact List.Forall₂.cons hab ih

/-- C8: in the source's SetAvailability overlap loop (the loop of
authController.ts:211-229, on the handler's post-parse path modelled by
`setAvailabilityPostParse`), both comparison bounds are derived from the
stored window's `startTime` field: for any two runs whose stored windows
differ only in their `endTime` values (all else equal), the response is the
same and a new row is persisted in one run exactly when it is persisted in
the other — the stored `endTime` never influences whether a candidate window
is reported as overlapping.  (For the full handler `SetAvailability` the
conclusion also holds, trivially: every request is answered identically.) -/
theorem C8_endTime_never_influences (st1 st2 : Store) (sid : String)
    (d : Int) (sT eT : String) (hs : st1.services = st2.services)
    (ha : List.Forall₂ sameButEnd st1.availabilities st2.availabilities) :
    (setAvailabilityPostParse st1 sid d sT eT).1 =
        (setAvailabilityPostParse st2 sid d sT eT).1 ∧
      ((setAvailabilityPostParse st1 sid d sT eT).2.availabilities.length =
          st1.availabilities.length + 1 ↔
        (setAvailabilityPostParse st2 sid d sT eT).2.availabilities.length =
          st2.availabilities.length + 1) := by
  have hfold := foldl_forEachStep_eq sT eT (filter_sameButEnd ha sid d)
    (none, false)
  simp only [setAvailabilityPostParse, hs, hfold]
  split
  · exact ⟨rfl, by simp⟩
  · cases hfind : st2.services.find? (fun s => s.id = sid) with
    | none => exact ⟨rfl, by simp⟩
    | some s =>
      cases hloop : (st2.availabilities.filter
          (fun a => a.serviceId = sid && a.dayOfWeek = d)).foldl
          (forEachStep sT eT) (none, false) with
      | mk sent errored =>
        cases sent with
        | none =>
          cases errored with
          | false => exact ⟨rfl, by simp⟩
          | true => exact ⟨rfl, by simp⟩
        | some r =>
          cases errored with
          | false => exact ⟨rfl, by simp⟩
          | true => exact ⟨rfl, by simp⟩

/-- Witness for C8: two concrete stores whose only difference is a stored
window's `endTime` ("11:00" vs "99:99") satisfy the hypotheses, and the
run outcomes coincide. -/
theorem C8_witness :
    (Store.mk [⟨"s1", "alice", "Physiotherapy", "MEDICAL", 30⟩]
        [⟨"s1", 4, "10:00", "11:00"⟩]).services =
      (Store.mk [⟨"s1", "alice", "Physiotherapy", "MEDICAL", 30⟩]
        [⟨"s1", 4, "10:00", "99:99"⟩]).services ∧
    List.Forall₂ sameButEnd
      (Store.mk [⟨"s1", "alice", "Physiotherapy", "MEDICAL", 30⟩]
        [⟨"s1", 4, "10:00", "11:00"⟩]).availabilities
      (Store.mk [⟨"s1", "alice", "Physiotherapy", "MEDICAL", 30⟩]
        [⟨"s1", 4, "10:00", "99:99"⟩]).availabilities ∧
    ((setAvailabilityPostParse
        (Store.mk [⟨"s1", "alice", "Physiotherapy", "MEDICAL", 30⟩]
          [⟨"s1", 4, "10:00", "11:00"⟩]) "s1" 4 "09:30" "10:30").1 =
      (setAvailabilityPostParse
        (Store.mk [⟨"s1", "alice", "Physiotherapy", "MEDICAL", 30⟩]
          [⟨"s1", 4, "10:00", "99:99"⟩]) "s1" 4 "09:30" "10:30").1 ∧
      ((setAvailabilityPostParse
          (Store.mk [⟨"s1", "alice", "Physiotherapy", "MEDICAL", 30⟩]
            [⟨"s1", 4, "10:00", "11:00"⟩]) "s1" 4 "09:30" "10:30").2.availabilities.length =
          (Store.mk [⟨"s1", "alice", "Physiotherapy", "MEDICAL", 30⟩]
            [⟨"s1", 4, "10:00", "11:00"⟩]).availabilities.length + 1 ↔
        (setAvailabilityPostParse
          (Store.mk [⟨"s1", "alice", "Physiotherapy", "MEDICAL", 30⟩]
            [⟨"s1", 4, "10:00", "99:99"⟩]) "s1" 4 "09:30" "10:30").2.availabilities.length =
          (Store.mk [⟨"s1", "alice", "Physiotherapy", "MEDICAL", 30⟩]
            [⟨"s1", 4, "10:00", "99:99"⟩]).availabilities.length + 1)) :=
  ⟨rfl, List.Forall₂.cons ⟨rfl, rfl, rfl⟩ List.Forall₂.nil,
    C8_endTime_never_influences _ _ "s1" 4 "09:30" "10:30" rfl
      (List.Forall₂.cons ⟨rfl, rfl, rfl⟩ List.Forall₂.nil)⟩

/-- C1: the claim (reject with OverlapConflict exactly on strict overlap;
touching windows admitted; in particular [09:00,10:01) against an existing
[10:00,11:00) is rejected with OverlapConflict) fails on the code: the zod
parse throws on every request, so the strictly overlapping candidate is
answered with the generic 500 "Internal server error" (never OverlapConflict,
and nothing is persisted), and the merely-touching candidate — which the
claim says is admitted — is answered the same 500 instead of being created. -/
theorem C1_no_overlap_conflict_ever :
    rowsOverlap ⟨"s1", 4, "10:00", "11:00"⟩ ⟨"s1", 4, "09:00", "10:01"⟩ = true ∧
    SetAvailability
        ⟨[⟨"s1", "alice", "Physiotherapy", "MEDICAL", 30⟩],
          [⟨"s1", 4, "10:00", "11:00"⟩]⟩ "s1" 4 "09:00" "10:01" =
      (⟨500, "Internal server error"⟩,
        ⟨[⟨"s1", "alice", "Physiotherapy", "MEDICAL", 30⟩],
          [⟨"s1", 4, "10:00", "11:00"⟩]⟩) ∧
    rowsOverlap ⟨"s1", 4, "09:00", "10:00"⟩ ⟨"s1", 4, "10:00", "11:00"⟩ = false ∧
    SetAvailability
        ⟨[⟨"s1", "alice", "Physiotherapy", "MEDICAL", 30⟩],
          [⟨"s1", 4, "09:00", "10:00"⟩]⟩ "s1" 4 "10:00" "11:00" =
      (⟨500, "Internal server error"⟩,
        ⟨[⟨"s1", "alice", "Physiotherapy", "MEDICAL", 30⟩],
          [⟨"s1", 4, "09:00", "10:00"⟩]⟩) :=
  ⟨rfl, rfl, rfl, rfl⟩

/-- C2: the store invariant holds in every state reachable by
`SetAvailability` calls: every such call dies at the zod parse and leaves
the store unchanged, so from any initial store with no availability rows,
every sequence of calls (hence every prefix, hence every reachable state)
has pairwise non-overlapping windows per `(serviceId, dayOfWeek)` —
vacuously, as no window is ever persisted. -/
theorem C2_invariant_holds (services : List Service) (cs : List WindowCall) :
    windowsNonOverlapping (runWindowCalls ⟨services, []⟩ cs) := by
  have h : ∀ (st : Store), runWindowCalls st cs = st := by
    induction cs with
    | nil => intro st; rfl
    | cons c t ih => intro st; exact ih st
  unfold windowsNonOverlapping
  rw [h]
  exact List.Pairwise.nil

/-- C3: no `SetAvailability` call ever persists a record and then discovers
a conflict: every call is answered 500 "Internal server error" at the zod
parse and the store is left exactly as it was.  In particular the claim
holds: a conflict-reporting call leaves the store unchanged (no call reports
a conflict, and indeed no call changes the store), and a successful call
adds exactly one row (vacuously — no call returns 201). -/
theorem C3_store_never_mutated (st : Store) (sid : String) (d : Int)
    (sT eT : String) :
    (SetAvailability st sid d sT eT).1 = ⟨500, "Internal server error"⟩ ∧
      (SetAvailability st sid d sT eT).2 = st :=
  ⟨rfl, rfl⟩

/-- C4: the claim (single canonical parser; InvalidTimeFormat exactly on
malformed input) fails on the code: the malformed times "99:99"/"88:88"
(rejected by the spec's parser) and the well-formed "09:00"/"10:00"
(accepted by it) are answered identically with the infrastructure-style
500 "Internal server error" — there is no canonical time parser, no
InvalidTimeFormat failure, and no 400-class distinction for malformed
input. -/
theorem C4_no_time_format_validation :
    parseHM "99:99" = none ∧ parseHM "09:00" = some 540 ∧
    SetAvailability ⟨[⟨"s1", "alice", "Physiotherapy", "MEDICAL", 30⟩], []⟩
        "s1" 1 "99:99" "88:88" =
      (⟨500, "Internal server error"⟩,
        ⟨[⟨"s1", "alice", "Physiotherapy", "MEDICAL", 30⟩], []⟩) ∧
    SetAvailability ⟨[⟨"s1", "alice", "Physiotherapy", "MEDICAL", 30⟩], []⟩
        "s1" 1 "09:00" "10:00" =
      (⟨500, "Internal server error"⟩,
        ⟨[⟨"s1", "alice", "Physiotherapy", "MEDICAL", 30⟩], []⟩) :=
  ⟨rfl, rfl, rfl, rfl⟩

/-- C5: the claim (a principal who is not the owning provider fails with
Forbidden/403) fails on the code: the middleware checks only the role — a
different provider ("bob") passes it for a service owned by "alice" — and
the handler then answers the generic 500 "Internal server error" (the parse
throws), never the claimed Forbidden; ownership is never consulted
anywhere on the path. -/
theorem C5_non_owner_not_forbidden :
    ("bob" : String) ≠ "alice" ∧
    isService_Provider ⟨"bob", "SERVICE_PROVIDER"⟩ = true ∧
    handleSetAvailability
        ⟨[⟨"s1", "alice", "Physiotherapy", "MEDICAL", 30⟩], []⟩
        ⟨"bob", "SERVICE_PROVIDER"⟩ "s1" 1 "09:00" "10:00" =
      (⟨500, "Internal server error"⟩,
        ⟨[⟨"s1", "alice", "Physiotherapy", "MEDICAL", 30⟩], []⟩) :=
  ⟨by decide, rfl, rfl⟩

/-- C6: the claim (unknown serviceId fails with typed NotFound mapped to
404) fails on the code: the parse throws before `findFirst` ever runs, so an
unknown serviceId is answered the generic 500 "Internal server error"; and
even the handler's own (unreachable) miss branch at lines 196-200 answers
status 500 "Service not found", not 404 — no 404 exists on any path. -/
theorem C6_not_found_never_404 :
    (Store.mk [⟨"s1", "alice", "Physiotherapy", "MEDICAL", 30⟩]
        []).services.find? (fun s => s.id = "nope") = none ∧
    SetAvailability ⟨[⟨"s1", "alice", "Physiotherapy", "MEDICAL", 30⟩], []⟩
        "nope" 1 "09:00" "10:00" =
      (⟨500, "Internal server error"⟩,
        ⟨[⟨"s1", "alice", "Physiotherapy", "MEDICAL", 30⟩], []⟩) ∧
    setAvailabilityPostParse
        ⟨[⟨"s1", "alice", "Physiotherapy", "MEDICAL", 30⟩], []⟩
        "nope" 1 "09:00" "10:00" =
      (⟨500, "Service not found"⟩,
        ⟨[⟨"s1", "alice", "Physiotherapy", "MEDICAL", 30⟩], []⟩) :=
  ⟨rfl, rfl, rfl⟩

/-- C7: dayOfWeek 0 (Sunday) is not rejected on account of its value: the
handler's outcome is identical for every dayOfWeek (each request is answered
500 "Internal server error" at the parse, before the `!dayOfWeek` falsiness
check is ever reached), and in particular a day-0 request never receives the
400 "Invalid input or time format" rejection. -/
theorem C7_day_value_never_decides (st : Store) (sid : String)
    (sT eT : String) (d : Int) :
    SetAvailability st sid d sT eT = SetAvailability st sid 0 sT eT ∧
      (SetAvailability st sid 0 sT eT).1.body ≠ "Invalid input or time format" :=
  ⟨rfl,
    (by decide :
      ("Internal server error" : String) ≠ "Invalid input or time format")⟩

/-- C9: CreateService accepts a `durationMinutes` value exactly when it is an
integer between 30 and 120 inclusive and a multiple of 30 (the schema chain
`number().int().gte(30).lte(120)` refined by `% 30 === 0`); any other value
is rejected by validation and no service row is created. -/
theorem C9_duration_rule (st : Store) (uid ty nid : String) (d : Rat)
    (hty : validServiceType ty = true) :
    (((CreateService st uid ⟨"Physiotherapy", ty, d⟩ nid).1.status = 201 ∧
        (CreateService st uid ⟨"Physiotherapy", ty, d⟩ nid).2.services.length =
          st.services.length + 1) ↔
      d.den = 1 ∧ 30 ≤ d ∧ d ≤ 120 ∧ d.num % 30 = 0) ∧
    (¬(d.den = 1 ∧ 30 ≤ d ∧ d ≤ 120 ∧ d.num % 30 = 0) →
      (CreateService st uid ⟨"Physiotherapy", ty, d⟩ nid).2 = st) := by
  have hz : zodAccepts ⟨"Physiotherapy", ty, d⟩ = validDuration d := by
    simp [zodAccepts, hty]
  by_cases hd : d.den = 1 ∧ 30 ≤ d ∧ d ≤ 120 ∧ d.num % 30 = 0
  · have hvd : validDuration d = true := by
      simp only [validDuration, Bool.and_eq_true, beq_iff_eq, decide_eq_true_eq]
      tauto
    simp [CreateService, hz, hvd, hd]
  · have hvd : validDuration d = false := by
      rw [Bool.eq_false_iff]
      intro hc
      apply hd
      simp only [validDuration, Bool.and_eq_true, beq_iff_eq,
        decide_eq_true_eq] at hc
      tauto
    constructor
    · constructor
      · rintro ⟨h201, _⟩
        simp [CreateService, hz, hvd] at h201
      · intro hc
        exact absurd hc hd
    · intro _
      simp [CreateService, hz, hvd]

/-- Witness for C9 at `ty = "MEDICAL"`, `d = 60`. -/
theorem C9_witness :
    validServiceType "MEDICAL" = true ∧
    ((((CreateService ⟨[], []⟩ "u" ⟨"Physiotherapy", "MEDICAL", 60⟩ "n").1.status = 201 ∧
        (CreateService ⟨[], []⟩ "u" ⟨"Physiotherapy", "MEDICAL", 60⟩ "n").2.services.length =
          (Store.mk [] []).services.length + 1) ↔
      (60 : Rat).den = 1 ∧ 30 ≤ (60 : Rat) ∧ (60 : Rat) ≤ 120 ∧ (60 : Rat).num % 30 = 0) ∧
    (¬((60 : Rat).den = 1 ∧ 30 ≤ (60 : Rat) ∧ (60 : Rat) ≤ 120 ∧ (60 : Rat).num % 30 = 0) →
      (CreateService ⟨[], []⟩ "u" ⟨"Physiotherapy", "MEDICAL", 60⟩ "n").2 = ⟨[], []⟩)) :=
  ⟨by decide, C9_duration_rule ⟨[], []⟩ "u" "MEDICAL" "n" 60 (by decide)⟩

/-- C10: CreateService accepts a request body only if its `name` field is
exactly the literal string "Physiotherapy" (`z.literal("Physiotherapy")`);
with an otherwise valid body, a row is created exactly when the name is that
literal, and any other name leaves the store unchanged. -/
theorem C10_name_literal (st : Store) (uid nm ty nid : String) (d : Rat)
    (hty : validServiceType ty = true) (hd : validDuration d = true) :
    (((CreateService st uid ⟨nm, ty, d⟩ nid).1.status = 201 ∧
        (CreateService st uid ⟨nm, ty, d⟩ nid).2.services.length =
          st.services.length + 1) ↔
      nm = "Physiotherapy") ∧
    (nm ≠ "Physiotherapy" → (CreateService st uid ⟨nm, ty, d⟩ nid).2 = st) := by
  by_cases hn : nm = "Physiotherapy"
  · subst hn
    simp [CreateService, zodAccepts, hty, hd]
  · have hb : (nm == "Physiotherapy") = false := by
      simp [hn]
    have hz : zodAccepts ⟨nm, ty, d⟩ = false := by
      simp [zodAccepts, hb]
    simp [CreateService, hz, hn]

/-- Witness for C10 at `nm = "Yoga"` (rejected), `ty = "MEDICAL"`, `d = 60`. -/
theorem C10_witness :
    validServiceType "MEDICAL" = true ∧ validDuration 60 = true ∧
    ((((CreateService ⟨[], []⟩ "u" ⟨"Yoga", "MEDICAL", 60⟩ "n").1.status = 201 ∧
        (CreateService ⟨[], []⟩ "u" ⟨"Yoga", "MEDICAL", 60⟩ "n").2.services.length =
          (Store.mk [] []).services.length + 1) ↔
      ("Yoga" : String) = "Physiotherapy") ∧
    (("Yoga" : String) ≠ "Physiotherapy" →
      (CreateService ⟨[], []⟩ "u" ⟨"Yoga", "MEDICAL", 60⟩ "n").2 = ⟨[], []⟩)) :=
  ⟨by decide, by decide,
    C10_name_literal ⟨[], []⟩ "u" "Yoga" "MEDICAL" "n" 60 (by decide) (by decide)⟩
